import Mathlib

/-!
Shallow embedding of the frontend API layer's error-normalization core:
`src/errors/errorCode.ts` (constants, `isKnownErrorCode`, `serializeBody`,
`createHeaders`, `extractErrorMessage`, `fetcher`) and
`src/errors/ApiError.ts` (the `ApiError` class and its classification
predicates).

Modelling conventions:
- JavaScript `undefined`/`null` on an optional position is `Option.none`;
  since every consumer of these values applies nullish coalescing (`??`),
  the two nullish values are collapsed to `none` at the point where a
  nullish check happens in the source.
- The transport (`fetch`) is an oracle parameter `FetchOptions → FetchOutcome`:
  it either throws (`FetchOutcome.failure`, carrying the thrown value) or
  resolves with a `Response`.  `Response.json` is the result of
  `await response.json()`: `none` means that call throws (unparsable body).
- `throw new ApiError ...` is the `FetchResult.error` constructor; the
  `undefined as T` returned for 204 is `FetchResult.noContent`.
-/

/-- JSON values, the model of what `response.json()` can produce and of
`Record<string, unknown>` request bodies. -/
inductive Json where
  | null
  | bool (b : Bool)
  | num (n : Int)
  | str (s : String)
  | arr (elems : List Json)
  | obj (fields : List (String × Json))

/-- Field lookup in an already-parsed JSON object (keys unique after
`JSON.parse`, first match returned). -/
def lookupField : List (String × Json) → String → Option Json
  | [], _ => none
  | (k, v) :: rest, key => if k = key then some v else lookupField rest key

/-- JavaScript property access `j[key]` as it behaves inside
`extractErrorMessage`: on an object it is field lookup; on `null` it throws,
but the surrounding `try` catches that and yields `undefined`; on every other
non-object value it is `undefined`. -/
def jsProp : Json → String → Option Json
  | .obj fields, key => lookupField fields key
  | _, _ => none

/-- Nullish coalescing test: a JS value is nullish when it is absent
(`undefined`) or `null`.  `nullishToNone v` is `v` unless `v` is nullish,
in which case it is `none`. -/
def nullishToNone : Option Json → Option Json
  | none => none
  | some .null => none
  | some v => some v

/-- Hexadecimal digit character, for `\u00XX` escapes. -/
def hexDigit (n : Nat) : Char :=
  if n < 10 then Char.ofNat (48 + n) else Char.ofNat (97 + (n - 10))

/-- Escaping of one character as performed by `JSON.stringify` on string
contents. -/
def escapeChar (c : Char) : String :=
  if c = '"' then "\\\""
  else if c = '\\' then "\\\\"
  else if c = '\n' then "\\n"
  else if c = '\t' then "\\t"
  else if c = '\r' then "\\r"
  else if c = '\x08' then "\\b"
  else if c = '\x0c' then "\\f"
  else if c.toNat < 32 then
    "\\u00" ++ String.singleton (hexDigit (c.toNat / 16))
            ++ String.singleton (hexDigit (c.toNat % 16))
  else String.singleton c

/-- String-content escaping of `JSON.stringify`. -/
def escapeString (s : String) : String :=
  s.foldl (fun acc c => acc ++ escapeChar c) ""

mutual

/-- Model of `JSON.stringify` on JSON values. -/
def Json.stringify : Json → String
  | .null => "null"
  | .bool true => "true"
  | .bool false => "false"
  | .num n => toString n
  | .str s => "\"" ++ escapeString s ++ "\""
  | .arr xs => "[" ++ Json.stringifyArr xs ++ "]"
  | .obj fs => "\x7b" ++ Json.stringifyFields fs ++ "\x7d"

/-- Comma-separated serialization of array elements. -/
def Json.stringifyArr : List Json → String
  | [] => ""
  | [x] => Json.stringify x
  | x :: y :: ys => Json.stringify x ++ "," ++ Json.stringifyArr (y :: ys)

/-- Comma-separated serialization of object fields. -/
def Json.stringifyFields : List (String × Json) → String
  | [] => ""
  | [(k, v)] => "\"" ++ escapeString k ++ "\":" ++ Json.stringify v
  | (k, v) :: f :: fs =>
      "\"" ++ escapeString k ++ "\":" ++ Json.stringify v ++ ","
        ++ Json.stringifyFields (f :: fs)

end

mutual

/-- JavaScript `String(·)` coercion of a JSON value, as applied by the
`Error` constructor to the `message` it receives. -/
def Json.display : Json → String
  | .null => "null"
  | .bool true => "true"
  | .bool false => "false"
  | .num n => toString n
  | .str s => s
  | .arr xs => Json.displayArr xs
  | .obj _ => "[object Object]"

/-- `Array.prototype.toString`: elements joined by commas, nullish elements
rendered as the empty string. -/
def Json.displayArr : List Json → String
  | [] => ""
  | [.null] => ""
  | [x] => Json.display x
  | .null :: y :: ys => "," ++ Json.displayArr (y :: ys)
  | x :: y :: ys => Json.display x ++ "," ++ Json.displayArr (y :: ys)

end

/-! ## errorCode.ts: constants and `isKnownErrorCode` -/

/-- `HTTP_ERROR_CODE`: the five known error status codes. -/
def HTTP_ERROR_CODE : List Nat := [400, 401, 403, 404, 500]

/-- `isKnownErrorCode(status)`: membership in `HTTP_ERROR_CODE`. -/
def isKnownErrorCode (status : Nat) : Bool :=
  HTTP_ERROR_CODE.contains status

/-- `HTTP_ERROR_MESSAGE`: default message table for the known codes.  The
source record is only defined (and only consulted) on the five known codes;
the catch-all branch here is never reached from `getDefaultMessage`. -/
def HTTP_ERROR_MESSAGE (code : Nat) : String :=
  if code = 400 then "잘못된 요청입니다."
  else if code = 401 then "인증이 필요합니다."
  else if code = 403 then "접근 권한이 없습니다."
  else if code = 404 then "요청한 리소스를 찾을 수 없습니다."
  else if code = 500 then "서버 오류가 발생했습니다."
  else ""

/-! ## ApiError.ts -/

/-- The argument object of the `ApiError` constructor. -/
structure ApiErrorOptions where
  status : Nat
  message : Option String := none
  endpoint : Option String := none

/-- The `ApiError` instance: `message` is the resolved message stored by
`super(errorMessage)`; `errorCode` is the known-code tag (`null` = `none`). -/
structure ApiError where
  status : Nat
  message : String
  errorCode : Option Nat
  endpoint : Option String

/-- `ApiError.getDefaultMessage(status)`. -/
def ApiError.getDefaultMessage (status : Nat) : String :=
  if isKnownErrorCode status then HTTP_ERROR_MESSAGE status
  else "알 수 없는 오류가 발생했습니다. (status: " ++ toString status ++ ")"

/-- The `ApiError` constructor: resolves `message ?? getDefaultMessage(status)`
and tags `errorCode` with the status when it is a known code. -/
def ApiError.create (opts : ApiErrorOptions) : ApiError :=
  { status := opts.status
    message := match opts.message with
      | some m => m
      | none => ApiError.getDefaultMessage opts.status
    errorCode := if isKnownErrorCode opts.status then some opts.status else none
    endpoint := opts.endpoint }

/-- `isStatus(status)`: exact status match. -/
def ApiError.isStatus (e : ApiError) (status : Nat) : Bool :=
  e.status == status

/-- `isAuthError()`: status is 401 or 403. -/
def ApiError.isAuthError (e : ApiError) : Bool :=
  e.status == 401 || e.status == 403

/-- `isClientError()`: 400 ≤ status < 500. -/
def ApiError.isClientError (e : ApiError) : Bool :=
  decide (400 ≤ e.status) && decide (e.status < 500)

/-- `isServerError()`: 500 ≤ status < 600. -/
def ApiError.isServerError (e : ApiError) : Bool :=
  decide (500 ≤ e.status) && decide (e.status < 600)

/-! ## fetcher.ts (concatenated into errorCode.ts in this snapshot) -/

/-- Opaque multipart payload (`FormData`); its content never matters to this
component, which passes it through unchanged. -/
structure FormData where
  parts : List (String × String)

/-- The `options.body` position: absent (`undefined`), a JSON-serializable
record, or a `FormData` instance. -/
inductive RequestBody where
  | absent
  | json (fields : List (String × Json))
  | formData (fd : FormData)

/-- `BodyInit`: what can be handed to `fetch` as a body. -/
inductive BodyInit where
  | str (s : String)
  | form (fd : FormData)

/-- `RequestOptions` as consumed by `fetcher` (method and other `RequestInit`
fields are passed through untouched and play no role in the claims). -/
structure RequestOptions where
  headers : List (String × String) := []
  body : RequestBody := .absent

/-- `DEFAULT_HEADERS`. -/
def DEFAULT_HEADERS : List (String × String) :=
  [("Content-Type", "application/json")]

/-- `serializeBody(body)`: absent stays absent, `FormData` passes through
unchanged, and a plain record is serialized with `JSON.stringify`. -/
def serializeBody : RequestBody → Option BodyInit
  | .absent => none
  | .formData fd => some (.form fd)
  | .json fields => some (.str (Json.stringify (.obj fields)))

/-- Header lists model JS object spread: `{...a, ...b}` is `a ++ b`, and a
later binding of a key overrides an earlier one, so lookup takes the last
matching entry. -/
def getHeader : List (String × String) → String → Option String
  | [], _ => none
  | (k, v) :: rest, key =>
      match getHeader rest key with
      | some v2 => some v2
      | none => if k = key then some v else none

/-- `createHeaders(customHeaders, body)`: for `FormData` only the caller's
headers (the browser sets the multipart boundary itself); otherwise the
defaults overlaid with the caller's headers, caller winning on collision. -/
def createHeaders (customHeaders : List (String × String))
    (body : RequestBody) : List (String × String) :=
  match body with
  | .formData _ => customHeaders
  | _ => DEFAULT_HEADERS ++ customHeaders

/-- The `fetchOptions` object handed to `fetch`. -/
structure FetchOptions where
  headers : List (String × String)
  body : Option BodyInit

/-- Construction of `fetchOptions` inside `fetcher`. -/
def buildFetchOptions (options : RequestOptions) : FetchOptions :=
  { headers := createHeaders options.headers options.body
    body := serializeBody options.body }

/-- The value a failing `fetch` call rejects with: `isError` is the
`error instanceof Error` test, `message` its message when it is one. -/
structure JsError where
  isError : Bool
  message : String

/-- An HTTP response as `fetcher` observes it: `json = none` means
`await response.json()` throws. -/
structure Response where
  ok : Bool
  status : Nat
  json : Option Json

/-- Outcome of the transport call: `fetch` either rejects or resolves. -/
inductive FetchOutcome where
  | failure (err : JsError)
  | response (resp : Response)

/-- Result of one `fetcher` call: a parsed value, the `undefined` returned
for 204, or a thrown `ApiError`. -/
inductive FetchResult where
  | ok (value : Json)
  | noContent
  | error (e : ApiError)

/-- `extractErrorMessage(response)`: parse the body as JSON and return
`body.message ?? body.error`, `undefined` on parse failure.  The property
accesses sit inside the same `try`, so a `null` body (whose property access
throws) also yields `undefined`; `Json.display` is the `String(·)` coercion
the `Error` constructor would apply to a non-string field value. -/
def extractErrorMessage (body : Option Json) : Option String :=
  match body with
  | none => none
  | some j =>
      match nullishToNone (jsProp j "message") with
      | some v => some (Json.display v)
      | none =>
          match nullishToNone (jsProp j "error") with
          | some v => some (Json.display v)
          | none => none

/-- `fetcher(endpoint, options)` against a transport oracle: build
`fetchOptions`, call the transport, then normalize the outcome exactly as the
source does — network failure to a status-0 `ApiError`; non-ok response to an
`ApiError` with the extracted message; 204 to the absence marker; otherwise
the parsed body, or a parse-failure `ApiError`. -/
def fetcher (endpoint : String) (options : RequestOptions)
    (transport : FetchOptions → FetchOutcome) : FetchResult :=
  match transport (buildFetchOptions options) with
  | .failure error =>
      .error (ApiError.create
        { status := 0
          message := some (if error.isError
            then "네트워크 오류: " ++ error.message
            else "네트워크 오류가 발생했습니다.")
          endpoint := some endpoint })
  | .response response =>
      if !response.ok then
        .error (ApiError.create
          { status := response.status
            message := extractErrorMessage response.json
            endpoint := some endpoint })
      else if response.status = 204 then
        .noContent
      else
        match response.json with
        | some v => .ok v
        | none =>
            .error (ApiError.create
              { status := response.status
                message := some "응답을 파싱할 수 없습니다."
                endpoint := some endpoint })

/-! ## Helper lemmas -/

/-- Last-wins lookup over a spread `a ++ b`: a key found in `b` overrides any
binding in `a`. -/
theorem getHeader_append (a b : List (String × String)) (k : String) :
    getHeader (a ++ b) k
      = match getHeader b k with
        | some v => some v
        | none => getHeader a k := by
  induction a with
  | nil => cases h : getHeader b k <;> simp [getHeader, h]
  | cons p rest ih =>
      cases p with
      | mk pk pv =>
          cases h : getHeader b k <;> cases h2 : getHeader rest k <;>
            simp [getHeader, ih, h, h2]

/-- Known-code membership spelled out. -/
theorem isKnownErrorCode_iff (s : Nat) :
    isKnownErrorCode s = true ↔ (s = 400 ∨ s = 401 ∨ s = 403 ∨ s = 404 ∨ s = 500) := by
  simp [isKnownErrorCode, HTTP_ERROR_CODE]

/-! ## Claim theorems -/

/-- Claim C6: the classification predicates are pure functions of
`statusCode`: `isStatus c` holds exactly when the status equals `c`;
`isAuthError` exactly on 401 and 403 (false elsewhere, including 0);
`isClientError` exactly on [400, 500); `isServerError` exactly on
[500, 600). -/
theorem apiError_classification (e : ApiError) :
    (∀ c : Nat, e.isStatus c = true ↔ e.status = c)
  ∧ (e.isAuthError = true ↔ e.status = 401 ∨ e.status = 403)
  ∧ (e.isClientError = true ↔ 400 ≤ e.status ∧ e.status < 500)
  ∧ (e.isServerError = true ↔ 500 ≤ e.status ∧ e.status < 600) := by
  refine ⟨fun c => ?_, ?_, ?_, ?_⟩ <;>
    simp [ApiError.isStatus, ApiError.isAuthError, ApiError.isClientError,
      ApiError.isServerError]

/-- Witness for C6 at a concrete error: status 403 is an auth error. -/
theorem apiError_classification_witness :
    (ApiError.create { status := 403 }).isAuthError = true :=
  (apiError_classification (ApiError.create { status := 403 })).2.1.mpr
    (Or.inr rfl)

/-- Claim C7: for a Structured Error built with status `s`, the `errorCode`
tag equals `s` exactly when `s` is one of the five known codes and is `none`
otherwise; and with no explicit message the resolved message is the fixed
table text for known codes, else the generic templated message embedding the
numeric code. -/
theorem apiError_defaults (s : Nat) (m : Option String) (ep : Option String) :
    ((s = 400 ∨ s = 401 ∨ s = 403 ∨ s = 404 ∨ s = 500) →
        (ApiError.create { status := s, message := m, endpoint := ep }).errorCode = some s)
  ∧ (¬(s = 400 ∨ s = 401 ∨ s = 403 ∨ s = 404 ∨ s = 500) →
        (ApiError.create { status := s, message := m, endpoint := ep }).errorCode = none)
  ∧ (ApiError.create { status := 400, endpoint := ep }).message = "잘못된 요청입니다."
  ∧ (ApiError.create { status := 401, endpoint := ep }).message = "인증이 필요합니다."
  ∧ (ApiError.create { status := 403, endpoint := ep }).message = "접근 권한이 없습니다."
  ∧ (ApiError.create { status := 404, endpoint := ep }).message = "요청한 리소스를 찾을 수 없습니다."
  ∧ (ApiError.create { status := 500, endpoint := ep }).message = "서버 오류가 발생했습니다."
  ∧ (¬(s = 400 ∨ s = 401 ∨ s = 403 ∨ s = 404 ∨ s = 500) →
        (ApiError.create { status := s, endpoint := ep }).message
          = "알 수 없는 오류가 발생했습니다. (status: " ++ toString s ++ ")") := by
  refine ⟨fun h => ?_, fun h => ?_, ?_, ?_, ?_, ?_, ?_, fun h => ?_⟩
  · simp [ApiError.create, (isKnownErrorCode_iff s).mpr h]
  · have hk : isKnownErrorCode s = false := by
      cases hb : isKnownErrorCode s with
      | true => exact absurd ((isKnownErrorCode_iff s).mp hb) h
      | false => rfl
    simp [ApiError.create, hk]
  · rfl
  · rfl
  · rfl
  · rfl
  · rfl
  · have hk : isKnownErrorCode s = false := by
      cases hb : isKnownErrorCode s with
      | true => exact absurd ((isKnownErrorCode_iff s).mp hb) h
      | false => rfl
    simp [ApiError.create, ApiError.getDefaultMessage, hk]

/-- Witness for C7 at status 418: unknown code, so `errorCode` is `none` and
the default message is the generic one embedding 418. -/
theorem apiError_defaults_witness :
    (ApiError.create { status := 418, message := none, endpoint := none }).errorCode = none
  ∧ (ApiError.create { status := 418, endpoint := none }).message
      = "알 수 없는 오류가 발생했습니다. (status: " ++ toString 418 ++ ")" :=
  ⟨(apiError_defaults 418 none none).2.1 (by decide),
   (apiError_defaults 418 none none).2.2.2.2.2.2.2 (by decide)⟩

/-- Claim C1: for every non-ok response, `fetcher` raises a Structured Error
whose `statusCode` equals the response status, whose message follows the
priority body `message` field → body `error` field → known-code table →
generic message embedding the status, and where an unparsable body behaves
exactly like one with neither field present. -/
theorem fetcher_non_ok (e : String) (opts : RequestOptions) (s : Nat)
    (body : Option Json) :
    ∃ err, fetcher e opts (fun _ => .response (Response.mk false s body)) = .error err
      ∧ err.status = s
      ∧ err.endpoint = some e
      ∧ (∀ j v, body = some j → nullishToNone (jsProp j "message") = some v →
            err.message = Json.display v)
      ∧ (∀ j v, body = some j → nullishToNone (jsProp j "message") = none →
            nullishToNone (jsProp j "error") = some v →
            err.message = Json.display v)
      ∧ (body = none →
            (isKnownErrorCode s = true → err.message = HTTP_ERROR_MESSAGE s)
          ∧ (isKnownErrorCode s = false →
              err.message
                = "알 수 없는 오류가 발생했습니다. (status: " ++ toString s ++ ")"))
      ∧ (∀ j, body = some j → nullishToNone (jsProp j "message") = none →
            nullishToNone (jsProp j "error") = none →
            (isKnownErrorCode s = true → err.message = HTTP_ERROR_MESSAGE s)
          ∧ (isKnownErrorCode s = false →
              err.message
                = "알 수 없는 오류가 발생했습니다. (status: " ++ toString s ++ ")")) := by
  refine ⟨ApiError.create
      { status := s, message := extractErrorMessage body, endpoint := some e },
    by simp [fetcher], rfl, rfl, ?_, ?_, ?_, ?_⟩
  · intro j v hj hv
    subst hj
    simp [ApiError.create, extractErrorMessage, hv]
  · intro j v hj hm he
    subst hj
    simp [ApiError.create, extractErrorMessage, hm, he]
  · intro hb
    subst hb
    constructor <;> intro hk <;>
      simp [ApiError.create, extractErrorMessage, ApiError.getDefaultMessage, hk]
  · intro j hj hm he
    subst hj
    constructor <;> intro hk <;>
      simp [ApiError.create, extractErrorMessage, ApiError.getDefaultMessage,
        hm, he, hk]

/-- Witness for C1: a 400 response whose body carries only an `error` field;
the raised error has status 400 and that field's text as its message. -/
theorem fetcher_non_ok_witness :
    ∃ err, fetcher "/api/users" {}
        (fun _ => .response (Response.mk false 400
          (some (.obj [("error", .str "nope")])))) = .error err
      ∧ err.status = 400
      ∧ err.message = "nope" := by
  obtain ⟨err, h1, h2, _, _, h5, _, _⟩ :=
    fetcher_non_ok "/api/users" {} 400 (some (.obj [("error", .str "nope")]))
  refine ⟨err, h1, h2, ?_⟩
  have := h5 (.obj [("error", .str "nope")]) (.str "nope") rfl
    (by simp [jsProp, lookupField, nullishToNone]) (by simp [jsProp, lookupField, nullishToNone])
  simpa [Json.display] using this

/-- Claim C2: when the transport call itself fails, `fetcher` raises a
Structured Error with status 0 and `originEndpoint` the endpoint string,
whose message indicates a network-layer failure (it extends the fixed
network-failure text) and embeds the lower-level failure's message when the
thrown value is an `Error`. -/
theorem fetcher_network_failure (e : String) (opts : RequestOptions)
    (b : Bool) (m : String) :
    ∃ err, fetcher e opts (fun _ => .failure (JsError.mk b m)) = .error err
      ∧ err.status = 0
      ∧ err.endpoint = some e
      ∧ (b = true → err.message = "네트워크 오류: " ++ m)
      ∧ (b = false → err.message = "네트워크 오류가 발생했습니다.")
      ∧ (∃ rest, err.message = "네트워크 오류" ++ rest) := by
  refine ⟨ApiError.create
      { status := 0
        message := some (if b then "네트워크 오류: " ++ m
          else "네트워크 오류가 발생했습니다.")
        endpoint := some e },
    by simp [fetcher], rfl, rfl, ?_, ?_, ?_⟩
  · intro hb
    simp [ApiError.create, hb]
  · intro hb
    simp [ApiError.create, hb]
  · cases b with
    | true =>
        refine ⟨": " ++ m, ?_⟩
        have h : "네트워크 오류: " = "네트워크 오류" ++ ": " := by decide
        simp only [ApiError.create]
        rw [h, String.append_assoc]
        simp
    | false =>
        exact ⟨"가 발생했습니다.", by simp [ApiError.create]⟩

/-- Witness for C2: a thrown `Error` with message text; the raised error has
status 0 and the network-failure message embedding it. -/
theorem fetcher_network_failure_witness :
    ∃ err, fetcher "/api/users" {}
        (fun _ => .failure (JsError.mk true "Failed to fetch")) = .error err
      ∧ err.status = 0
      ∧ err.message = "네트워크 오류: " ++ "Failed to fetch" := by
  obtain ⟨err, h1, h2, _, h4, _, _⟩ :=
    fetcher_network_failure "/api/users" {} true "Failed to fetch"
  exact ⟨err, h1, h2, h4 rfl⟩

/-- Claim C3: for every ok response with status other than 204, `fetcher`
returns the JSON-decoded body unchanged; when the body cannot be parsed it
instead raises a Structured Error carrying the (successful) status and the
fixed cannot-parse message. -/
theorem fetcher_success (e : String) (opts : RequestOptions) (s : Nat)
    (body : Option Json) :
    (∀ v, body = some v → s ≠ 204 →
        fetcher e opts (fun _ => .response (Response.mk true s body)) = .ok v)
  ∧ (body = none → s ≠ 204 →
        ∃ err, fetcher e opts (fun _ => .response (Response.mk true s body)) = .error err
          ∧ err.status = s
          ∧ err.message = "응답을 파싱할 수 없습니다."
          ∧ err.endpoint = some e) := by
  constructor
  · intro v hv hs
    subst hv
    simp [fetcher, hs]
  · intro hb hs
    subst hb
    refine ⟨ApiError.create
        { status := s, message := some "응답을 파싱할 수 없습니다.",
          endpoint := some e }, ?_, rfl, rfl, rfl⟩
    simp [fetcher, hs]

/-- Witness for C3: a 200 response with body `{"id":1}` is returned unchanged,
and a 200 response with an unparsable body raises the cannot-parse error. -/
theorem fetcher_success_witness :
    fetcher "/api/users/1" {}
        (fun _ => .response (Response.mk true 200 (some (.obj [("id", .num 1)]))))
      = .ok (.obj [("id", .num 1)])
  ∧ ∃ err, fetcher "/api/users/1" {}
        (fun _ => .response (Response.mk true 200 none)) = .error err
      ∧ err.status = 200
      ∧ err.message = "응답을 파싱할 수 없습니다."
      ∧ err.endpoint = some "/api/users/1" :=
  ⟨(fetcher_success "/api/users/1" {} 200 (some (.obj [("id", .num 1)]))).1
      (.obj [("id", .num 1)]) rfl (by decide),
   (fetcher_success "/api/users/1" {} 200 none).2 rfl (by decide)⟩

/-- Claim C4: for every ok response with status exactly 204, `fetcher`
returns the absence marker; the result is the same whatever the body (and
whether or not it would parse), so the body is never consulted. -/
theorem fetcher_no_content (e : String) (opts : RequestOptions)
    (body : Option Json) :
    fetcher e opts (fun _ => .response (Response.mk true 204 body))
      = .noContent := by
  simp [fetcher]

/-- Claim C5: a plain-mapping body is transmitted as its JSON text
serialization under the default headers overlaid with the caller's headers
(caller wins, and `Content-Type: application/json` is supplied when the
caller does not override it); a `FormData` body is transmitted unchanged
under exactly the caller's headers with no injected `Content-Type`; an
absent body transmits no body. -/
theorem transmitted_body_and_headers (hs : List (String × String))
    (fs : List (String × Json)) (fd : FormData) :
    (buildFetchOptions { headers := hs, body := .json fs }).body
        = some (.str (Json.stringify (.obj fs)))
  ∧ (∀ k, getHeader (buildFetchOptions { headers := hs, body := .json fs }).headers k
        = match getHeader hs k with
          | some v => some v
          | none => getHeader DEFAULT_HEADERS k)
  ∧ (getHeader hs "Content-Type" = none →
      getHeader (buildFetchOptions { headers := hs, body := .json fs }).headers
          "Content-Type" = some "application/json")
  ∧ (buildFetchOptions { headers := hs, body := .formData fd }).body
        = some (.form fd)
  ∧ (buildFetchOptions { headers := hs, body := .formData fd }).headers = hs
  ∧ (buildFetchOptions { headers := hs, body := .absent }).body = none := by
  refine ⟨rfl, fun k => ?_, fun h => ?_, rfl, rfl, rfl⟩
  · exact getHeader_append DEFAULT_HEADERS hs k
  · have := getHeader_append DEFAULT_HEADERS hs "Content-Type"
    rw [h] at this
    simpa [DEFAULT_HEADERS, getHeader] using this

/-- Witness for C5: with no caller headers, a JSON body gets
`Content-Type: application/json`. -/
theorem transmitted_body_and_headers_witness :
    getHeader (buildFetchOptions { headers := [], body := .json [] }).headers
        "Content-Type" = some "application/json" :=
  (transmitted_body_and_headers [] [] (FormData.mk [])).2.2.1 rfl

/-- Claim C8: every `fetcher` call has exactly one of three outcomes — a
parsed value, the absence marker, or a raised Structured Error — and the
value/marker outcomes occur only in the circumstances the spec states: a
parsed value only for an ok response with parsable body and status ≠ 204,
the absence marker only for an ok response with status 204. -/
theorem fetcher_trichotomy (e : String) (opts : RequestOptions)
    (t : FetchOptions → FetchOutcome) :
    ((∃ v, fetcher e opts t = .ok v)
      ∨ fetcher e opts t = .noContent
      ∨ (∃ err, fetcher e opts t = .error err))
  ∧ (∀ v, fetcher e opts t = .ok v →
        ∃ resp, t (buildFetchOptions opts) = .response resp
          ∧ resp.ok = true ∧ resp.status ≠ 204 ∧ resp.json = some v)
  ∧ (fetcher e opts t = .noContent →
        ∃ resp, t (buildFetchOptions opts) = .response resp
          ∧ resp.ok = true ∧ resp.status = 204)
  ∧ (∀ v, fetcher e opts t = .ok v → fetcher e opts t ≠ .noContent)
  ∧ (∀ v err, fetcher e opts t = .ok v → fetcher e opts t ≠ .error err)
  ∧ (∀ err, fetcher e opts t = .noContent → fetcher e opts t ≠ .error err) := by
  refine ⟨?_, ?_, ?_,
    fun v h1 h2 => by rw [h1] at h2; exact FetchResult.noConfusion h2,
    fun v err h1 h2 => by rw [h1] at h2; exact FetchResult.noConfusion h2,
    fun err h1 h2 => by rw [h1] at h2; exact FetchResult.noConfusion h2⟩
  · cases h : t (buildFetchOptions opts) with
    | failure jsErr =>
        exact Or.inr (Or.inr ⟨ApiError.create
          { status := 0
            message := some (if jsErr.isError then "네트워크 오류: " ++ jsErr.message
              else "네트워크 오류가 발생했습니다.")
            endpoint := some e }, by simp [fetcher, h]⟩)
    | response resp =>
        cases hok : resp.ok with
        | false =>
            exact Or.inr (Or.inr ⟨ApiError.create
              { status := resp.status
                message := extractErrorMessage resp.json
                endpoint := some e }, by simp [fetcher, h, hok]⟩)
        | true =>
            by_cases hs : resp.status = 204
            · exact Or.inr (Or.inl (by simp [fetcher, h, hok, hs]))
            · cases hj : resp.json with
              | some v => exact Or.inl ⟨v, by simp [fetcher, h, hok, hs, hj]⟩
              | none =>
                  exact Or.inr (Or.inr ⟨ApiError.create
                    { status := resp.status
                      message := some "응답을 파싱할 수 없습니다."
                      endpoint := some e }, by simp [fetcher, h, hok, hs, hj]⟩)
  · intro v hv
    cases h : t (buildFetchOptions opts) with
    | failure jsErr => simp [fetcher, h] at hv
    | response resp =>
        refine ⟨resp, rfl, ?_⟩
        cases hok : resp.ok with
        | false => simp [fetcher, h, hok] at hv
        | true =>
            by_cases hs : resp.status = 204
            · simp [fetcher, h, hok, hs] at hv
            · cases hj : resp.json with
              | some w =>
                  simp [fetcher, h, hok, hs, hj] at hv
                  exact ⟨rfl, hs, by rw [hv]⟩
              | none => simp [fetcher, h, hok, hs, hj] at hv
  · intro hv
    cases h : t (buildFetchOptions opts) with
    | failure jsErr => simp [fetcher, h] at hv
    | response resp =>
        refine ⟨resp, rfl, ?_⟩
        cases hok : resp.ok with
        | false => simp [fetcher, h, hok] at hv
        | true =>
            by_cases hs : resp.status = 204
            · exact ⟨rfl, hs⟩
            · cases hj : resp.json with
              | some w => simp [fetcher, h, hok, hs, hj] at hv
              | none => simp [fetcher, h, hok, hs, hj] at hv

/-- Witness for C8: with a transport resolving ok/204, the call hits the
absence-marker outcome and the characterization recovers the 204 response. -/
theorem fetcher_trichotomy_witness :
    ∃ resp, (fun _ => FetchOutcome.response (Response.mk true 204 none))
        (buildFetchOptions {}) = FetchOutcome.response resp
      ∧ resp.ok = true ∧ resp.status = 204 :=
  (fetcher_trichotomy "/api" {}
    (fun _ => FetchOutcome.response (Response.mk true 204 none))).2.2.1 rfl

/-- Claim C9: a non-ok response whose JSON body has `message` equal to the
empty string yields an error whose message is the empty string: `??` treats
the empty string as present, so neither the `error` field nor the table
default is consulted. -/
theorem empty_string_message_wins (e : String) (opts : RequestOptions)
    (s : Nat) (errText : String) :
    ∃ err, fetcher e opts (fun _ => .response (Response.mk false s
        (some (.obj [("message", .str ""), ("error", .str errText)]))))
      = .error err
      ∧ err.message = ""
      ∧ err.status = s := by
  refine ⟨ApiError.create
      { status := s
        message := some ""
        endpoint := some e }, ?_, rfl, rfl⟩
  simp [fetcher, extractErrorMessage, jsProp, lookupField, nullishToNone,
    Json.display]

/-- Claim C10: algebra of the classification predicates — every auth error is
a client error, the client- and server-error ranges are disjoint, and every
known error code is classified as a client or a server error. -/
theorem classification_algebra (err : ApiError) :
    (err.isAuthError = true → err.isClientError = true)
  ∧ ¬(err.isClientError = true ∧ err.isServerError = true)
  ∧ (isKnownErrorCode err.status = true →
      err.isClientError = true ∨ err.isServerError = true) := by
  refine ⟨fun h => ?_, fun h => ?_, fun h => ?_⟩
  · simp [ApiError.isAuthError] at h
    simp [ApiError.isClientError]
    omega
  · obtain ⟨h1, h2⟩ := h
    simp [ApiError.isClientError] at h1
    simp [ApiError.isServerError] at h2
    omega
  · rcases (isKnownErrorCode_iff err.status).mp h with h5 | h5 | h5 | h5 | h5 <;>
      simp [ApiError.isClientError, ApiError.isServerError, h5]

/-- Witness for C10 at status 401: an auth error that is a client error. -/
theorem classification_algebra_witness :
    (ApiError.create { status := 401 }).isClientError = true :=
  (classification_algebra (ApiError.create { status := 401 })).1 rfl
